import Mathlib

/-!
# Verification of `DublinOnTime/main.py`

A shallow embedding of the BusStopAssistant webhook (`src/DublinOnTime/main.py`)
and proofs about its behaviour.  Strings are modelled as `List Char` in the
parsing layer (Python `str` operations become explicit list functions) and as
Lean `String` in the response-composition layer.  Randomness (`random.choice`)
is modelled by explicit choice indices.  Fallible Python operations (`int(...)`,
attribute access on a pandas frame) are modelled with `Option`/`Except`.
-/

namespace DublinOnTime

/-- Worker for `digitRuns`: `pending` is the (reversed) digit run currently
being scanned. -/
def digitRunsGo (pending : List Char) : List Char → List (List Char)
  | [] => if pending = [] then [] else [pending.reverse]
  | c :: rest =>
    if c.isDigit then digitRunsGo (c :: pending) rest
    else if pending = [] then digitRunsGo [] rest
    else pending.reverse :: digitRunsGo [] rest

/-- Python `re.findall("\\d+", s)`: the maximal runs of decimal digits of `s`,
left to right.  Embeds `main.py` line 54. -/
def digitRuns (cs : List Char) : List (List Char) :=
  digitRunsGo [] cs

/-- Index of the leftmost occurrence of `pat` in a list, if any: Python
`pat in s` / `s.index(pat)` (`main.py` lines 57 and 59). -/
def firstOccur (pat : List Char) : List Char → Option Nat
  | [] => if pat.isPrefixOf ([] : List Char) then some 0 else none
  | c :: rest =>
    if pat.isPrefixOf (c :: rest) then some 0
    else (firstOccur pat rest).map (· + 1)

/-- Python slice `s[:j]` where `j` may be negative (a negative bound counts
from the end of the string, as in `stop_param[:index - 1]` on line 60). -/
def pySliceTo (cs : List Char) (j : Int) : List Char :=
  if j < 0 then cs.take ((cs.length : Int) + j).toNat else cs.take j.toNat

/-- Value of a digit string, most significant digit first. -/
def digitsToNat (cs : List Char) : Nat :=
  cs.foldl (fun n c => 10 * n + (c.toNat - '0'.toNat)) 0

/-- Python `int(s)` on the strings this program can build: an optional sign
followed by a non-empty digit run parses, anything else raises `ValueError`
(modelled as `none`).  Embeds the call on `main.py` line 64. -/
def pyInt (cs : List Char) : Option Int :=
  if cs ≠ [] ∧ cs.all Char.isDigit then some (digitsToNat cs : Int)
  else
    match cs with
    | '-' :: rest =>
        if rest ≠ [] ∧ rest.all Char.isDigit then some (-(digitsToNat rest : Int)) else none
    | '+' :: rest =>
        if rest ≠ [] ∧ rest.all Char.isDigit then some (digitsToNat rest : Int) else none
    | _ => none

/-- The literal separator `" to "` of `main.py` lines 57-60. -/
def toSep : List Char := [' ', 't', 'o', ' ']

/-- The stop-identifier computation of `main.py` lines 57-64, applied to the
raw `stop` parameter: splice on `" to "` (replacing the character before the
separator and the separator itself by the digit `'2'`), otherwise take the
first digit run; then drop spaces, truncate at the first `'.'` and parse with
`int`.  `none` models `int` raising `ValueError`. -/
def resolveStop (stop : List Char) : Option Int :=
  let sp : List Char :=
    match firstOccur toSep stop with
    | some i => pySliceTo stop ((i : Int) - 1) ++ '2' :: stop.drop (i + 4)
    | none => (digitRuns stop).headD []
  pyInt ((sp.filter (fun c => c ≠ ' ')).takeWhile (fun c => c ≠ '.'))

example : resolveStop "70 to 94".toList = some 7294 := by decide
example : resolveStop "7 to 2".toList = some 22 := by decide
example : resolveStop "24/72".toList = some 24 := by decide
example : resolveStop "12.5".toList = some 12 := by decide
example : resolveStop " 123 ".toList = some 123 := by decide
example : resolveStop "1 to b".toList = none := by decide

/-! ## Availability classification (`BusStopResponse.set_availability`) -/

/-- The state of the bus availability (`Availability` enum, `main.py` 31-35). -/
inductive Availability where
  | ONE_BUS
  | MANY_BUSES
  | NO_BUSES
deriving DecidableEq

/-- Constant `Constants.MAX_BUSES` (`main.py` line 40). -/
def MAX_BUSES : Nat := 5

/-- The pandas frame `self.bus_response` as far as this program inspects it: a
well-formed frame is the list of `(Service, Time)` rows (both stringified);
`malformed` stands for any object on which the attribute accesses of
`set_availability` raise. -/
inductive BusData where
  | frame (rows : List (String × String))
  | malformed
deriving DecidableEq

/-- Field access `self.bus_response.Service.size`: row count of a well-formed frame;
raises (models as `Except.error`) on a malformed one. -/
def serviceSize : BusData → Except Unit Nat
  | .frame rows => .ok rows.length
  | .malformed => .error ()

/-- Pandas `DataFrame.head n`: the first `n` rows. -/
def pandasHead (n : Nat) : BusData → BusData
  | .frame rows => .frame (rows.take n)
  | .malformed => .malformed

/-- Method `BusStopResponse.set_availability` (`main.py` 220-232): classify by row
count, truncating to `MAX_BUSES` rows when there are more, and mapping any
exception raised while inspecting the input to `NO_BUSES`.  Returns the
availability together with the (possibly truncated) `self.bus_response`. -/
def set_availability (d : BusData) : Availability × BusData :=
  match serviceSize d with
  | .error _ => (.NO_BUSES, d)
  | .ok n =>
    if n > 1 then
      (.MANY_BUSES, if n > MAX_BUSES then pandasHead MAX_BUSES d else d)
    else if n = 1 then (.ONE_BUS, d)
    else (.NO_BUSES, d)

/-! ## Message composition (`BusStopResponse`) -/

/-- Phrase bank `BusStopResponse.greetings` (`main.py` 126-130). -/
def greetings : List String :=
  ["Welcome to Dublin on time. Please tell me the bus stop number you would like me to check for you",
   "Hello!, please tell me the stop number you would like me to verify",
   "Hey there, please tell me the stop number you need me to check",
   "Hi, please tell me the stop number"]

/-- Phrase bank `BusStopResponse.error_messages` (`main.py` 132-133). -/
def error_messages : List String :=
  ["Sorry, I could not find this information. Please try later.",
   "It was not possible to get this information. Please try again later"]

/-- Phrase bank `BusStopResponse.single_bus_message` (`main.py` 135). -/
def single_bus_message : List String :=
  ["One bus is coming.", "There is one bus coming  "]

/-- Phrase bank `BusStopResponse.many_buses_message` (`main.py` 137-138). -/
def many_buses_message : List String :=
  [" These buses are coming soon: ", " The following buses are coming:  ",
   " These are the buses coming to your bus stop: "]

/-- Phrase bank `BusStopResponse.goodbye_message` (`main.py` 139). -/
def goodbye_message : List String :=
  [" Have a safe trip!", " Goodbye!", " Have a nice day!", " Have a great day!", "  Adios!"]

/-- Python `random.choice(l)` with the drawn index made explicit: index `n` draws
element `n % l.length`, so every element is reachable and a fixed `n` is a
fixed draw. -/
def pyChoice (l : List String) (n : Nat) : String := l.getD (n % l.length) ""

/-- Explicit source of randomness for one request: the index drawn by the
`random.choice` inside `set_message` (`g`) and the one drawn by
`get_goodbye_message` (`s`). -/
structure Rand where
  g : Nat
  s : Nat

/-- Method `BusStopResponse.make_paragraph` (`main.py` 191-193). -/
def make_paragraph (m : String) : String := "<p><s>" ++ m ++ "</s></p>"

/-- Method `BusStopResponse.add_speech_pause` (`main.py` 195-203). -/
def add_speech_pause (m side t : String) : String :=
  if side = "before" then "<break time=\"" ++ t ++ "\"/>" ++ m
  else if side = "after" then m ++ "<break time=\"" ++ t ++ "\"/>"
  else m

/-- Method `BusStopResponse.get_goodbye_message` (`main.py` 181-184). -/
def get_goodbye_message (n : Nat) : String :=
  add_speech_pause (pyChoice goodbye_message n) "before" "2s"

/-- Helper `is_time` (`main.py` 238-242): the time text contains a colon. -/
def is_time (t : String) : Bool := t.toList.contains ':'

/-- Helper `is_due` (`main.py` 244-248): the time text lowercases to `"due"`
(Python `str(time_value).lower() == "due"`, modelled character-wise). -/
def is_due (t : String) : Bool := t.toList.map Char.toLower == "due".toList

/-- Python `str.replace("Mins", "minutes")`: replace every non-overlapping
occurrence, left to right (`main.py` line 262). -/
def replaceMins : List Char → List Char
  | 'M' :: 'i' :: 'n' :: 's' :: rest => 'm' :: 'i' :: 'n' :: 'u' :: 't' :: 'e' :: 's' :: replaceMins rest
  | c :: rest => c :: replaceMins rest
  | [] => []

/-- Helper `prepare_message` (`main.py` 250-263): one per-bus detail fragment. -/
def prepare_message (st : String × String) : String :=
  let base := st.1 ++ " "
  if is_due st.2 then base ++ " is due"
  else if is_time st.2 then
    base ++ " is coming at <say-as interpret-as=\"time\" format=\"24\"> " ++ st.2 ++ "</say-as>"
  else base ++ String.mk (replaceMins st.2.toList)

/-- Method `BusStopResponse.get_incoming_buses_detailed_message` (`main.py` 234-268):
one detail fragment per `(Service, Time)` row, in row order.  (The pipeline
only calls it on a well-formed frame.) -/
def get_incoming_buses_detailed_message : BusData → List String
  | .frame rows => rows.map prepare_message
  | .malformed => []

/-- The fixed no-buses sentence (`main.py` line 213). -/
def noBusesText : String := "I could not find any buses arriving at this bus stop."

/-- Method `BusStopResponse.set_message` (`main.py` 205-218), with the availability,
the (already truncated) frame and the `random.choice` draw made explicit. -/
def set_message (avail : Availability) (d : BusData) (g : Nat) : String :=
  let base : String :=
    match avail with
    | .MANY_BUSES => make_paragraph (pyChoice many_buses_message g)
    | .ONE_BUS => make_paragraph (pyChoice single_bus_message g)
    | .NO_BUSES => noBusesText
  if avail = .MANY_BUSES ∨ avail = .ONE_BUS then
    base ++ String.intercalate ", " (get_incoming_buses_detailed_message d)
  else base

/-- Method `BusStopResponse.__init__` (`main.py` 141-147) followed by the read of
`response.response_message`: classify, truncate, compose. -/
def busResponseMessage (d : BusData) (r : Rand) : String :=
  set_message (set_availability d).1 (set_availability d).2 r.g

/-- Expression `response_message + BusStopResponse.get_goodbye_message()`
(`main.py` line 70). -/
def composeFinal (d : BusData) (r : Rand) : String :=
  busResponseMessage d r ++ get_goodbye_message r.s

/-! ## Tag stripping (`BusStopResponse.get_text_only_message`) -/

/-- Worker for `stripTags`, scanning left to right as `re.sub` does.
`none` means we are outside any candidate tag; `some buf` means we saw a `'<'`
and `buf` holds (reversed) the characters consumed since it, none of which is
`'>'`.  On `'>'` the candidate closes and is dropped if it has at least one
inner character (`<[^>]+>`); a bare `"<>"` is no match and is emitted; at end
of input an unclosed candidate is emitted unchanged. -/
def stripTagsGo (p : Option (List Char)) : List Char → List Char
  | [] =>
    match p with
    | some buf => buf.reverse
    | none => []
  | c :: rest =>
    match p with
    | none => if c = '<' then stripTagsGo (some ['<']) rest else c :: stripTagsGo none rest
    | some buf =>
      if c = '>' then
        if buf = ['<'] then '<' :: '>' :: stripTagsGo none rest
        else stripTagsGo none rest
      else stripTagsGo (some (c :: buf)) rest

/-- Python `re.sub("<[^>]+>", "", s)`: remove every non-overlapping, leftmost
match of `'<'`, one or more non-`'>'` characters, `'>'` (`main.py` line 169). -/
def stripTags (cs : List Char) : List Char := stripTagsGo none cs

/-- Method `BusStopResponse.get_text_only_message` (`main.py` 167-169). -/
def get_text_only_message (m : String) : String := String.mk (stripTags m.toList)

/-- Method `BusStopResponse.make_ssml_message` (`main.py` 149-151). -/
def make_ssml_message (m : String) : String := "<speak>" ++ m ++ "</speak>"

/-- Does the tag pattern `<[^>]+>` match anywhere in the list?  (Used to state
that stripped text is markup-free.) -/
def hasTag : List Char → Bool
  | [] => false
  | [_] => false
  | a :: b :: rest =>
    if a = '<' ∧ b ≠ '>' ∧ rest.contains '>' then true else hasTag (b :: rest)

example : stripTags "<speak>hi <break time=\"2s\"/>there</speak>".toList = "hi there".toList := by
  decide
example : stripTags "a <> b <<x> c".toList = "a <> b  c".toList := by decide
example : hasTag "a <b> c".toList = true := by decide
example : hasTag "a <> c".toList = false := by decide

/-- The `SimpleResponse` content placed in the Dialogflow reply: the
tag-stripped text, the SSML text, and the `expect_user_response` flag. -/
structure GoogleResp where
  textOnly : String
  ssml : String
  expectUserResponse : Bool
deriving DecidableEq

/-- Method `BusStopResponse.create_google_response` (`main.py` 153-160). -/
def create_google_response (m : String) (expect : Bool) : GoogleResp :=
  ⟨get_text_only_message m, make_ssml_message m, expect⟩

/-! ## The POST handler (`BusStopRequest.on_post`) -/

/-- Outcome of one `on_post` call: either a well-formed body was set on the
falcon response, or an exception escaped the handler back to the platform. -/
inductive HandlerResult where
  | ok (resp : GoogleResp)
  | uncaughtError
deriving DecidableEq

/-- Method `BusStopRequest.on_post` (`main.py` 46-88).  `action`/`stop` are the
Dialogflow action and `stop` parameter; `fetch` is the outcome of
`query_bus_stop` + `deserialize_response` (`none` models those raising).

The reprompt branch (line 77) and the `except` branch (line 86) both call
`self.create_google_response`, but `self` is the `BusStopRequest` instance and
that method exists only on `BusStopResponse`, so both branches raise
`AttributeError`; an error raised on line 86 is outside the `try` block and
escapes the handler, hence every path other than the fully successful one ends
in `uncaughtError`. -/
def on_post (action : String) (stop : Option String) (fetch : Option BusData)
    (r : Rand) : HandlerResult :=
  let stopParam := (stop.getD "").toList
  if action = "call_busstop_api" ∧ stopParam ≠ [] ∧ digitRuns stopParam ≠ [] then
    match resolveStop stopParam with
    | some _busStop =>
      match fetch with
      | some d => .ok (create_google_response (composeFinal d r) false)
      | none => .uncaughtError
    | none => .uncaughtError
  else if action = "call_busstop_api" then
    .uncaughtError
  else
    .uncaughtError

/-! ## Lemmas about the stop-identifier computation -/

lemma digit_ne_space {c : Char} (h : c.isDigit = true) : c ≠ ' ' := by
  intro he; subst he; exact absurd h (by decide)

lemma digit_ne_dot {c : Char} (h : c.isDigit = true) : c ≠ '.' := by
  intro he; subst he; exact absurd h (by decide)

/-- On an all-digit string, removing spaces and truncating at the first dot
changes nothing (`main.py` lines 63-64). -/
lemma cleanup_digits (cs : List Char) (h : cs.all Char.isDigit = true) :
    (cs.filter (fun c => c ≠ ' ')).takeWhile (fun c => c ≠ '.') = cs := by
  induction cs with
  | nil => rfl
  | cons c rest ih =>
    rw [List.all_cons, Bool.and_eq_true] at h
    have hs : decide (c ≠ ' ') = true := by simp [digit_ne_space h.1]
    have hd : decide (c ≠ '.') = true := by simp [digit_ne_dot h.1]
    rw [List.filter_cons, if_pos hs, List.takeWhile_cons, if_pos hd, ih h.2]

/-- Python `int` succeeds on a non-empty all-digit string. -/
lemma pyInt_digits (cs : List Char) (h1 : cs ≠ []) (h2 : cs.all Char.isDigit = true) :
    pyInt cs = some ((digitsToNat cs : Nat) : Int) := by
  unfold pyInt
  rw [if_pos ⟨h1, h2⟩]

/-- The first occurrence of `" to "` in `digits ++ " to " ++ anything` is
right after the digits. -/
lemma firstOccur_toSep_append (l r : List Char) (hl : l.all Char.isDigit = true) :
    firstOccur toSep (l ++ (toSep ++ r)) = some l.length := by
  induction l with
  | nil =>
    rw [List.nil_append]
    show firstOccur toSep (' ' :: 't' :: 'o' :: ' ' :: r) = some 0
    rw [firstOccur, if_pos]
    simp [toSep, List.isPrefixOf]
  | cons a l' ih =>
    rw [List.all_cons, Bool.and_eq_true] at hl
    have ha : a ≠ ' ' := digit_ne_space hl.1
    rw [List.cons_append, firstOccur, if_neg, ih hl.2]
    · rfl
    · simp [toSep, List.isPrefixOf, Ne.symm ha]

/-- Python `s[:i - 1]` for `s = l ++ rest`, `i = len(l)`, `l` non-empty:
everything of `l` but its last character. -/
lemma pySliceTo_splice (l rest : List Char) (h0 : l ≠ []) :
    pySliceTo (l ++ rest) ((l.length : Int) - 1) = l.dropLast := by
  have hlen : 0 < l.length := List.length_pos.mpr h0
  unfold pySliceTo
  rw [if_neg (by omega : ¬((l.length : Int) - 1 < 0))]
  have ht : ((l.length : Int) - 1).toNat = l.length - 1 := by omega
  rw [ht, List.take_append_of_le_length (by omega), ← List.dropLast_eq_take]

/-- Python `s[i + 4:]` for `s = l ++ (" to " ++ r)`, `i = len(l)`. -/
lemma drop_splice (l r : List Char) : (l ++ (toSep ++ r)).drop (l.length + 4) = r := by
  rw [← List.append_assoc]
  have h4 : (l ++ toSep).length = l.length + 4 := by simp [toSep]
  rw [← h4, List.drop_left]

lemma spliced_all_digits {l r : List Char} (hl : l.all Char.isDigit = true)
    (hr : r.all Char.isDigit = true) :
    (l.dropLast ++ '2' :: r).all Char.isDigit = true := by
  rw [List.all_eq_true] at hl hr ⊢
  intro x hx
  rcases List.mem_append.mp hx with h | h
  · rw [List.dropLast_eq_take] at h
    exact hl x (List.take_subset _ _ h)
  · rcases List.mem_cons.mp h with rfl | h'
    · decide
    · exact hr x h'

/-! ## Lemmas about `re.findall` runs -/

lemma digitRunsGo_all (cs : List Char) :
    ∀ pending : List Char, pending.all Char.isDigit = true →
      ∀ run ∈ digitRunsGo pending cs, run ≠ [] ∧ run.all Char.isDigit = true := by
  induction cs with
  | nil =>
    intro pending hp run hrun
    simp only [digitRunsGo] at hrun
    by_cases h : pending = []
    · simp [h] at hrun
    · rw [if_neg h] at hrun
      rcases List.mem_singleton.mp hrun with rfl
      refine ⟨by simp [h], ?_⟩
      simpa using hp
  | cons c rest ih =>
    intro pending hp run hrun
    simp only [digitRunsGo] at hrun
    by_cases hc : c.isDigit = true
    · rw [if_pos hc] at hrun
      exact ih (c :: pending) (by simp [List.all_cons, hc, hp]) run hrun
    · rw [if_neg hc] at hrun
      by_cases hpe : pending = []
      · rw [if_pos hpe] at hrun
        exact ih [] rfl run hrun
      · rw [if_neg hpe] at hrun
        rcases List.mem_cons.mp hrun with rfl | h'
        · refine ⟨by simp [hpe], by simpa using hp⟩
        · exact ih [] rfl run h'

lemma digitRuns_head_spec (cs : List Char) (h : digitRuns cs ≠ []) :
    (digitRuns cs).headD [] ≠ [] ∧ ((digitRuns cs).headD []).all Char.isDigit = true := by
  rcases hd : digitRuns cs with _ | ⟨run, runs'⟩
  · exact absurd hd h
  · have hmem : run ∈ digitRuns cs := by rw [hd]; exact List.mem_cons_self run runs'
    simpa [hd] using digitRunsGo_all cs [] rfl run hmem

/-- When the text has no `" to "`, `main.py` lines 62-64 turn the first digit
run into the stop number. -/
lemma resolveStop_no_to (cs : List Char) (hto : firstOccur toSep cs = none)
    (hruns : digitRuns cs ≠ []) :
    resolveStop cs = some ((digitsToNat ((digitRuns cs).headD []) : Nat) : Int) := by
  obtain ⟨hne, hdig⟩ := digitRuns_head_spec cs hruns
  unfold resolveStop
  simp only [hto]
  rw [cleanup_digits _ hdig]
  exact pyInt_digits _ hne hdig

/-! ## Claim C2: the `" to "` splice -/

/-- Claim C2 as stated is false: on `"7 to 2"` the code produces stop id 22,
not the `left_digits ++ "2" ++ right_digits` value 722, because line 60 drops
the character immediately before `" to "` (`stop_param[:index - 1]`). -/
theorem C2_counterexample :
    resolveStop "7 to 2".toList = some 22 ∧ resolveStop "7 to 2".toList ≠ some 722 := by
  decide

/-- Claim C2 amended: for digit runs `l` and `r` joined by `" to "`, the stop
id is `l` *without its final digit*, then the junction digit `'2'`, then `r`
(so `"70 to 94"` → 7294, but `"7 to 2"` → 22). -/
theorem C2_splice_drops_digit (l r : List Char) (h0 : l ≠ [])
    (hl : l.all Char.isDigit = true) (hr : r.all Char.isDigit = true) :
    resolveStop (l ++ (toSep ++ r)) =
      some ((digitsToNat (l.dropLast ++ '2' :: r) : Nat) : Int) := by
  unfold resolveStop
  simp only [firstOccur_toSep_append l r hl]
  rw [pySliceTo_splice l (toSep ++ r) h0, drop_splice l r]
  rw [cleanup_digits _ (spliced_all_digits hl hr)]
  exact pyInt_digits _ (by simp) (spliced_all_digits hl hr)

/-- Witness for C2: `"70 to 94"` resolves to 7294. -/
theorem C2_witness : resolveStop "70 to 94".toList = some 7294 := by
  have h := C2_splice_drops_digit ['7', '0'] ['9', '4'] (by decide) (by decide) (by decide)
  have e : "70 to 94".toList = ['7', '0'] ++ (toSep ++ ['9', '4']) := by decide
  rw [e, h]
  decide

/-! ## Claim C3: slashes -/

/-- Claim C3 as stated is false: `"24/72"` resolves to stop id 24 (the first
digit run), not 2472 — line 62 takes `match_numbers[0]`, it does not splice
digit runs across a slash. -/
theorem C3_counterexample :
    resolveStop "24/72".toList = some 24 ∧ resolveStop "24/72".toList ≠ some 2472 := by
  decide

/-- Claim C3 amended: for any text without `" to "` that contains a digit,
the stop id is the value of the *first* maximal digit run; characters after
it (slashes included, together with every further digit run) are discarded. -/
theorem C3_first_digit_run (cs : List Char) (hto : firstOccur toSep cs = none)
    (hruns : digitRuns cs ≠ []) :
    resolveStop cs = some ((digitsToNat ((digitRuns cs).headD []) : Nat) : Int) :=
  resolveStop_no_to cs hto hruns

/-- Witness for C3: `"24/72"` resolves to 24. -/
theorem C3_witness : resolveStop "24/72".toList = some 24 := by
  have h := C3_first_digit_run "24/72".toList (by decide) (by decide)
  rw [h]
  decide

/-! ## Claim C6: the digits invariant -/

/-- Claim C6 as stated is false: `"1 to b"` contains a digit, yet the
constructed id `"2b"` is not numeric and `int` raises (construction fails
even though the text contains digits). -/
theorem C6_counterexample :
    digitRuns "1 to b".toList ≠ [] ∧ resolveStop "1 to b".toList = none := by
  decide

/-- Claim C6 amended: when the text has no `" to "`, the constructed stop id
is a non-empty all-digit string, so parsing it as a non-negative integer
cannot fail; with `" to "` present, construction can fail despite digits
being present (see the counterexample). -/
theorem C6_digits_invariant (cs : List Char) (hto : firstOccur toSep cs = none)
    (hruns : digitRuns cs ≠ []) :
    ∃ ds : List Char, ds ≠ [] ∧ ds.all Char.isDigit = true ∧
      resolveStop cs = some ((digitsToNat ds : Nat) : Int) :=
  ⟨(digitRuns cs).headD [], (digitRuns_head_spec cs hruns).1,
    (digitRuns_head_spec cs hruns).2, resolveStop_no_to cs hto hruns⟩

/-- Witness for C6: `" 123 "` yields an all-digit id. -/
theorem C6_witness :
    ∃ ds : List Char, ds ≠ [] ∧ ds.all Char.isDigit = true ∧
      resolveStop " 123 ".toList = some ((digitsToNat ds : Nat) : Int) :=
  C6_digits_invariant " 123 ".toList (by decide) (by decide)

/-! ## Claims C4 and C5: the availability classifier -/

/-- Closed form of `set_availability` on a well-formed frame. -/
lemma set_availability_frame (rows : List (String × String)) :
    set_availability (.frame rows) =
      ((if rows.length = 0 then .NO_BUSES
        else if rows.length = 1 then .ONE_BUS
        else .MANY_BUSES),
       .frame (if MAX_BUSES < rows.length then rows.take MAX_BUSES else rows)) := by
  unfold set_availability serviceSize pandasHead
  rcases rows with _ | ⟨a, _ | ⟨b, rest2⟩⟩
  · simp
  · simp [MAX_BUSES]
  · have h0 : (a :: b :: rest2).length ≠ 0 := by simp
    have hne1 : (a :: b :: rest2).length ≠ 1 := by simp
    have h1 : 1 < (a :: b :: rest2).length := by simp
    by_cases h5 : MAX_BUSES < (a :: b :: rest2).length
    · simp [gt_iff_lt, h0, hne1, h1, h5, apply_ite BusData.frame]
    · simp [gt_iff_lt, h0, hne1, h1, h5, apply_ite BusData.frame]

/-- Claim C4: 0 rows classify as `NO_BUSES`, 1 row as `ONE_BUS`, more than one
row as `MANY_BUSES`; and exactly the first `MAX_BUSES` rows are retained (in
original order) when the count exceeds `MAX_BUSES`, all others kept as-is. -/
theorem C4_classifier (rows : List (String × String)) :
    set_availability (.frame rows) =
      ((if rows.length = 0 then .NO_BUSES
        else if rows.length = 1 then .ONE_BUS
        else .MANY_BUSES),
       .frame (if MAX_BUSES < rows.length then rows.take MAX_BUSES else rows)) :=
  set_availability_frame rows

/-- Claim C5: any failure while inspecting the scraped input (modelled as
`serviceSize` raising) is caught and mapped to `NO_BUSES`; nothing is
propagated and the data is left untouched. -/
theorem C5_fail_soft (d : BusData) (h : serviceSize d = .error ()) :
    set_availability d = (.NO_BUSES, d) := by
  unfold set_availability
  rw [h]

/-- Witness for C5: a malformed scrape result classifies as `NO_BUSES`. -/
theorem C5_witness : set_availability .malformed = (.NO_BUSES, .malformed) :=
  C5_fail_soft .malformed rfl

/-! ## Claim C7: composed message shape -/

lemma intercalate_singleton (s x : String) : String.intercalate s [x] = x := rfl

/-- Claim C7: with no buses the composed message is the fixed sentence and
carries no per-bus detail; with one bus it carries exactly the one retained
row's fragment; with many buses it carries one fragment per retained row, in
row order, joined by `", "`. -/
theorem C7_composer (d : BusData) (r : Rand) :
    ((set_availability d).1 = .NO_BUSES → busResponseMessage d r = noBusesText) ∧
    ((set_availability d).1 = .ONE_BUS →
      ∃ row, (set_availability d).2 = .frame [row] ∧
        busResponseMessage d r =
          make_paragraph (pyChoice single_bus_message r.g) ++ prepare_message row) ∧
    ((set_availability d).1 = .MANY_BUSES →
      ∃ rows, (set_availability d).2 = .frame rows ∧ 2 ≤ rows.length ∧
        busResponseMessage d r =
          make_paragraph (pyChoice many_buses_message r.g) ++
            String.intercalate ", " (rows.map prepare_message)) := by
  refine ⟨?_, ?_, ?_⟩
  · intro h
    unfold busResponseMessage
    rw [h]
    simp [set_message]
  · intro h
    cases d with
    | malformed => exact absurd h (by decide)
    | frame rows =>
      have hset := set_availability_frame rows
      rw [hset] at h
      simp only at h
      split_ifs at h with h0 h1
      obtain ⟨a, rfl⟩ := List.length_eq_one.mp h1
      refine ⟨a, ?_, ?_⟩
      · rw [hset]
        simp [MAX_BUSES]
      · unfold busResponseMessage
        rw [hset]
        simp [set_message, get_incoming_buses_detailed_message, intercalate_singleton,
          MAX_BUSES]
  · intro h
    cases d with
    | malformed => exact absurd h (by decide)
    | frame rows =>
      have hset := set_availability_frame rows
      rw [hset] at h
      simp only at h
      split_ifs at h with h0 h1
      by_cases h5 : MAX_BUSES < rows.length
      · refine ⟨rows.take MAX_BUSES, ?_, ?_, ?_⟩
        · rw [hset]
          simp [h5]
        · rw [List.length_take]
          simp [MAX_BUSES]
          omega
        · unfold busResponseMessage
          rw [hset]
          simp [set_message, get_incoming_buses_detailed_message, h0, h1, h5]
      · refine ⟨rows, ?_, ?_, ?_⟩
        · rw [hset]
          simp [h5]
        · omega
        · unfold busResponseMessage
          rw [hset]
          simp [set_message, get_incoming_buses_detailed_message, h0, h1, h5]

/-- Witness for C7, at a two-row frame: the composed message is the many-buses
lead-in followed by both detail fragments joined by `", "`. -/
theorem C7_witness :
    ∃ rows, (set_availability (.frame [("46A", "Due"), ("145", "22:05")])).2 = .frame rows ∧
      2 ≤ rows.length ∧
      busResponseMessage (.frame [("46A", "Due"), ("145", "22:05")]) ⟨0, 0⟩ =
        make_paragraph (pyChoice many_buses_message (0 : Nat)) ++
          String.intercalate ", " (rows.map prepare_message) :=
  (C7_composer (.frame [("46A", "Due"), ("145", "22:05")]) ⟨0, 0⟩).2.2 (by decide)

/-! ## Claim C8: clock-time fragments -/

/-- Claim C8 as stated is false: for the row `("145", "22:05")` the fragment
embeds SSML markup and extra spacing between `"is coming at"` and the time
text, so in no reading (colon retained or replaced by a space) does the
display text equal `"is coming at "` followed by the time text. -/
theorem C8_counterexample :
    prepare_message ("145", "22:05") =
      "145  is coming at <say-as interpret-as=\"time\" format=\"24\"> 22:05</say-as>" ∧
    firstOccur "is coming at 22:05".toList (prepare_message ("145", "22:05")).toList = none ∧
    firstOccur "is coming at 22 05".toList (prepare_message ("145", "22:05")).toList = none := by
  refine ⟨?_, ?_, ?_⟩ <;> decide

/-- Claim C8 amended: for a non-"due" time text containing a colon, the
fragment is the service label, two spaces, `"is coming at "`, then the time
text — colon always retained — wrapped in a fixed `say-as` SSML tag with a
leading space; there is no configuration switch. -/
theorem C8_clocktime_markup (s t : String) (hdue : is_due t = false)
    (htime : is_time t = true) :
    prepare_message (s, t) =
      s ++ " " ++ " is coming at <say-as interpret-as=\"time\" format=\"24\"> " ++ t ++
        "</say-as>" := by
  simp [prepare_message, hdue, htime]

/-- Witness for C8 at the row `("39", "10:30")`. -/
theorem C8_witness :
    prepare_message ("39", "10:30") =
      "39" ++ " " ++ " is coming at <say-as interpret-as=\"time\" format=\"24\"> " ++ "10:30" ++
        "</say-as>" :=
  C8_clocktime_markup "39" "10:30" (by decide) (by decide)

/-! ## Claim C9: randomness only touches lead-in and sign-off -/

/-- The lead-in fragment of a composed message: a function of the
availability and the first random draw only. -/
def leadIn (d : BusData) (r : Rand) : String :=
  match (set_availability d).1 with
  | .MANY_BUSES => make_paragraph (pyChoice many_buses_message r.g)
  | .ONE_BUS => make_paragraph (pyChoice single_bus_message r.g)
  | .NO_BUSES => noBusesText

/-- The per-bus detail part of a composed message: a function of the scraped
data alone — by its type it cannot depend on the random draws. -/
def detailPart (d : BusData) : String :=
  if (set_availability d).1 = .NO_BUSES then ""
  else String.intercalate ", " (get_incoming_buses_detailed_message (set_availability d).2)

/-- The sign-off fragment: a function of the second random draw only. -/
def signOff (r : Rand) : String := get_goodbye_message r.s

/-- Claim C9: with equal draws the composed message is identical, and for any
two draws the message factors as lead-in ++ details ++ sign-off where the
detail part is the same function of the data, independent of the draws. -/
theorem C9_seed_independence (d : BusData) (r1 r2 : Rand) :
    (r1 = r2 → composeFinal d r1 = composeFinal d r2) ∧
    composeFinal d r1 = leadIn d r1 ++ detailPart d ++ signOff r1 ∧
    composeFinal d r2 = leadIn d r2 ++ detailPart d ++ signOff r2 := by
  refine ⟨fun h => by rw [h], ?_, ?_⟩ <;>
  · unfold composeFinal busResponseMessage set_message leadIn detailPart signOff
    rcases ha : (set_availability d).1
    · simp [ha]
    · simp [ha]
    · simp [ha]

/-- Witness for C9 at a one-row frame and equal draws. -/
theorem C9_witness :
    composeFinal (.frame [("39", "10 Mins")]) ⟨1, 2⟩ =
        composeFinal (.frame [("39", "10 Mins")]) ⟨1, 2⟩ ∧
    composeFinal (.frame [("39", "10 Mins")]) ⟨1, 2⟩ =
      leadIn (.frame [("39", "10 Mins")]) ⟨1, 2⟩ ++ detailPart (.frame [("39", "10 Mins")]) ++
        signOff ⟨1, 2⟩ :=
  ⟨(C9_seed_independence (.frame [("39", "10 Mins")]) ⟨1, 2⟩ ⟨1, 2⟩).1 rfl,
   (C9_seed_independence (.frame [("39", "10 Mins")]) ⟨1, 2⟩ ⟨1, 2⟩).2.1⟩

/-! ## Claim C10: the text-only variant is markup-free -/

lemma hasTag_cons_of_ne (c : Char) (xs : List Char) (h : c ≠ '<') :
    hasTag (c :: xs) = hasTag xs := by
  cases xs with
  | nil => rfl
  | cons b rest =>
    simp only [hasTag]
    rw [if_neg (fun hc => h hc.1)]

lemma hasTag_no_gt (xs : List Char) (h : '>' ∉ xs) : hasTag xs = false := by
  induction xs with
  | nil => rfl
  | cons a tail ih =>
    cases tail with
    | nil => rfl
    | cons b rest =>
      simp only [hasTag]
      rw [if_neg, ih (fun hx => h (List.mem_cons_of_mem a hx))]
      intro hc
      exact h (List.mem_cons_of_mem a (List.mem_cons_of_mem b (List.elem_iff.mp hc.2.2)))

/-- No match of `<[^>]+>` survives `stripTagsGo`: kept characters are either
outside any match, a bare unclosable `"<>"`, or an unclosed trailing
candidate (which contains no `'>'` at all). -/
lemma stripTagsGo_tag_free (cs : List Char) :
    ∀ p : Option (List Char), (∀ buf, p = some buf → '>' ∉ buf) →
      hasTag (stripTagsGo p cs) = false := by
  induction cs with
  | nil =>
    intro p hp
    cases p with
    | none => rfl
    | some buf =>
      simp only [stripTagsGo]
      exact hasTag_no_gt _ (by simpa [List.mem_reverse] using hp buf rfl)
  | cons c rest ih =>
    intro p hp
    cases p with
    | none =>
      by_cases hc : c = '<'
      · simp only [stripTagsGo, if_pos hc]
        refine ih (some ['<']) ?_
        intro buf hb
        cases hb
        decide
      · simp only [stripTagsGo, if_neg hc]
        rw [hasTag_cons_of_ne c _ hc]
        exact ih none (fun buf hb => nomatch hb)
    | some buf =>
      have hbuf : '>' ∉ buf := hp buf rfl
      by_cases hc : c = '>'
      · subst hc
        by_cases hb : buf = ['<']
        · simp only [stripTagsGo, if_pos rfl, if_pos hb]
          simp only [hasTag]
          rw [if_neg (fun hx => hx.2.1 rfl)]
          rw [hasTag_cons_of_ne '>' _ (by decide)]
          exact ih none (fun buf hb => nomatch hb)
        · simp only [stripTagsGo, if_pos rfl, if_neg hb]
          exact ih none (fun buf hb => nomatch hb)
      · simp only [stripTagsGo, if_neg hc]
        refine ih (some (c :: buf)) ?_
        intro buf' hb'
        cases hb'
        intro hm
        rcases List.mem_cons.mp hm with he | hm'
        · exact hc he.symm
        · exact hbuf hm'

lemma hasTag_stripTags (cs : List Char) : hasTag (stripTags cs) = false :=
  stripTagsGo_tag_free cs none (fun _ hb => nomatch hb)

/-- Claim C10: the text half of every emitted `SimpleResponse` is the message
with every `<[^>]+>` tag removed, and no tag pattern survives in it, while
the spoken half is the message wrapped in `<speak>` tags. -/
theorem C10_text_only_tag_free (m : String) (expect : Bool) :
    (create_google_response m expect).textOnly = String.mk (stripTags m.toList) ∧
    (create_google_response m expect).ssml = "<speak>" ++ m ++ "</speak>" ∧
    hasTag (create_google_response m expect).textOnly.toList = false :=
  ⟨rfl, rfl, hasTag_stripTags m.toList⟩

/-! ## Claim C1: every request resolves to a response -/

/-- Claim C1 fails on the code (the spec states the clear intent): a request
whose action is `call_busstop_api` but whose `stop` parameter is missing
reaches `main.py` line 77, where `self.create_google_response` raises
`AttributeError` (`self` is the `BusStopRequest`, which has no such method);
the `except` handler then raises the same `AttributeError` at line 86,
outside the `try`, and the exception escapes to the platform instead of a
reprompt.  The same happens on every error path (second conjunct: the
upstream fetch raising).  Only the fully successful path produces a
response (third conjunct). -/
theorem C1_reprompt_crashes :
    on_post "call_busstop_api" none (some (.frame [("46A", "Due")])) ⟨0, 0⟩ = .uncaughtError ∧
    on_post "call_busstop_api" (some "315") none ⟨0, 0⟩ = .uncaughtError ∧
    on_post "call_busstop_api" (some "315") (some (.frame [("46A", "Due")])) ⟨0, 0⟩ =
      .ok (create_google_response (composeFinal (.frame [("46A", "Due")]) ⟨0, 0⟩) false) := by
  refine ⟨?_, ?_, ?_⟩ <;> decide

end DublinOnTime
